import Mathlib

/-!
# Verification of the AWS Batch Job Queue resource plugin

Shallow embedding of `aws/resource_aws_batch_job_queue.go`
(package `aws` of the terraform-provider-aws repository).

Modelling conventions:

* The Terraform plugin framework (`helper/schema`) is an external library,
  declared out of scope by the design document (§1, §6).  Its state store
  (`d.Set` / `d.Get` / `d.SetId`) is modelled as a total record update on
  `TFState`; its diff detection (`d.HasChange(s)`) as a comparison between the
  prior state and the planned state, where a key that is not declared in the
  resource schema never carries a diff.
* The AWS Batch API client is modelled by response oracles passed as
  parameters: each `conn.X(...)` call is given its result (`Except` for the
  Go `(value, error)` pair).  `DescribeJobQueues` results may vary across
  successive polling ticks, so polling oracles take the tick number.
* Go machine integers (`int`, `int64`) are modelled as `Int`; no arithmetic
  in this file can overflow a 64-bit machine word.
* Go's dynamic `interface{}` values that flow through the schema layer are
  modelled by `GoVal`; a failed type assertion (`v.(T)` panic) is an explicit
  `GoPanicKind` error.
* `resource.StateChangeConf.WaitForState` (external library, described in
  design document §4.2) is modelled as a fuel-bounded polling loop; durations
  are recorded in seconds in `StateChangeConf`.
-/

namespace BatchJobQueue

/-! ## Constants of the AWS SDK `batch` package -/

def jqStatusCreating : String := "CREATING"

def jqStatusUpdating : String := "UPDATING"

def jqStatusValid : String := "VALID"

def jqStatusDeleting : String := "DELETING"

def jqStatusDeleted : String := "DELETED"

def jqStatusInvalid : String := "INVALID"

def jqStateEnabled : String := "ENABLED"

def jqStateDisabled : String := "DISABLED"

/-- The real lifecycle statuses of the AWS Batch job-queue API
(`batch.JQStatus_Values()`). -/
def batchJobQueueStatuses : List String :=
  [jqStatusCreating, jqStatusUpdating, jqStatusValid,
   jqStatusDeleting, jqStatusDeleted, jqStatusInvalid]

/-! ## Go dynamic values (`interface{}`) as stored by the schema layer -/

/-- A Go `interface{}` value as it appears in the schema layer's
`map[string]interface{}` blocks.  A `TypeInt` attribute is stored as a Go
`int` (`goInt`), never as an `int64`. -/
inductive GoVal
  | goInt (n : Int)
  | goInt64 (n : Int)
  | goString (s : String)
deriving Repr, DecidableEq

/-- A Go run-time panic kind; `interfaceConversion` is the panic raised by a
failed type assertion `v.(T)`. -/
inductive GoPanicKind
  | interfaceConversion
deriving Repr, DecidableEq

/-- A Go `map[string]interface{}` block, as an association list. -/
abbrev GoMap := List (String × GoVal)

/-- Go map indexing `m[k]`: `none` models the `nil` interface value returned
for a missing key. -/
def goMapIndex (m : GoMap) (k : String) : Option GoVal :=
  (List.find? (fun kv => kv.1 == k) m).map (fun kv => kv.2)

/-- The Go type assertion `v.(int64)`: succeeds only on a value whose dynamic
type is `int64`; on anything else (including a Go `int` or the `nil`
interface) it panics with an interface-conversion error. -/
def assertGoInt64 : Option GoVal → Except GoPanicKind Int
  | some (.goInt64 n) => .ok n
  | _ => .error .interfaceConversion

/-- The Go type assertion `v.(string)`. -/
def assertGoString : Option GoVal → Except GoPanicKind String
  | some (.goString s) => .ok s
  | _ => .error .interfaceConversion

/-! ## AWS Batch API data types -/

/-- Tag maps (`map[string]string`), as association lists. -/
abbrev Tags := List (String × String)

/-- `batch.ComputeEnvironmentOrder`: one entry of the API-side
compute-environment order list (both pointer fields always set by this
code via `aws.Int64` / `aws.String`). -/
structure ComputeEnvironmentOrder where
  order : Int
  computeEnvironment : String
deriving Repr, DecidableEq

/-- `batch.JobQueueDetail`: what `DescribeJobQueues` reports for one queue. -/
structure JobQueueDetail where
  jobQueueArn : String
  jobQueueName : String
  priority : Int
  state : String
  status : String
  computeEnvironmentOrder : List ComputeEnvironmentOrder
  tags : Tags := []
deriving Repr, DecidableEq

/-- `batch.CreateJobQueueInput` (tags empty when the merged tag map is
empty, mirroring the `len(tags) > 0` guard). -/
structure CreateJobQueueInput where
  computeEnvironmentOrder : List ComputeEnvironmentOrder
  jobQueueName : String
  priority : Int
  state : String
  tags : Tags := []
deriving Repr, DecidableEq

/-- `batch.UpdateJobQueueInput`; `none` models an unset (`nil`) pointer
field, as in the disable call which only sets `JobQueue` and `State`. -/
structure UpdateJobQueueInput where
  computeEnvironmentOrder : Option (List ComputeEnvironmentOrder) := none
  jobQueue : String
  priority : Option Int := none
  state : Option String := none
deriving Repr, DecidableEq

/-- One issued AWS Batch API mutation, for call traces.
`batchUpdateTags` is the tag-reconciliation call
`keyvaluetags.BatchUpdateTags(conn, arn, o, n)`. -/
inductive ApiCall
  | createJobQueue (input : CreateJobQueueInput)
  | updateJobQueue (input : UpdateJobQueueInput)
  | deleteJobQueue (jobQueue : String)
  | batchUpdateTags (arn : String) (o n : Tags)
deriving Repr, DecidableEq

/-- An error escaping one of the resource functions: either a Go run-time
panic or an ordinary returned `error` (messages modelled as strings). -/
inductive RunError
  | goPanicErr (p : GoPanicKind)
  | goError (msg : String)
deriving Repr, DecidableEq

/-! ## Tag helpers (`aws/internal/keyvaluetags`, not part of the core file) -/

/-- Modelled from the spec: the provider's default-tags configuration merge
(`DefaultTagsConfig.MergeTags`), a tag-merging utility declared out of scope
in §1; resource-level tags win over provider default tags on key clashes. -/
def mergeTags (defaultTags tags : Tags) : Tags :=
  List.filter (fun kv => List.all tags (fun kv2 => kv2.1 ≠ kv.1)) defaultTags ++ tags

/-- Modelled from the spec: `KeyValueTags.IgnoreAws()`, a tag utility (out of
scope in §1) dropping AWS-internal tags, whose keys carry the reserved
`aws:` prefix. -/
def ignoreAws (tags : Tags) : Tags :=
  List.filter (fun kv => !(String.startsWith kv.1 "aws:")) tags

/-- Modelled from the spec: `KeyValueTags.IgnoreConfig`, a tag utility (out
of scope in §1) dropping the provider-configured ignored keys. -/
def ignoreConfig (ignoredKeys : List String) (tags : Tags) : Tags :=
  List.filter (fun kv => !(List.contains ignoredKeys kv.1)) tags

/-- Modelled from the spec: `KeyValueTags.RemoveDefaultConfig`, a tag utility
(out of scope in §1) dropping the key/value pairs that come from the
provider default-tags configuration. -/
def removeDefaultConfig (defaultTags tags : Tags) : Tags :=
  List.filter (fun kv => !(List.contains defaultTags kv)) tags

/-- The provider-level configuration carried by `meta.(*AWSClient)`. -/
structure AWSClientConfig where
  defaultTags : Tags := []
  ignoreTagKeys : List String := []
deriving Repr, DecidableEq

/-! ## Terraform state -/

/-- One `compute_environment_order` block as the user declares it (schema:
`compute_environment` a `TypeString`, `order` a `TypeInt`). -/
structure ComputeEnvironmentOrderBlock where
  computeEnvironment : String
  order : Int
deriving Repr, DecidableEq

/-- The resource's stored state, one field per schema attribute
(`d.Set` / `d.Get` / `d.SetId` act as total record reads and updates).
`computeEnvironments` holds what was written under the key
`"compute_environments"` — a key the schema does NOT declare (the schema
declares `compute_environment_order`); it is kept as a separate field so
that writes to it are visibly disjoint from `computeEnvironmentOrder`. -/
structure TFState where
  id : String
  arn : String := ""
  name : String
  priority : Int
  state : String
  computeEnvironmentOrder : List ComputeEnvironmentOrderBlock
  tags : Tags := []
  tagsAll : Tags := []
  computeEnvironments : Option (List String) := none
deriving Repr, DecidableEq

/-- The schema layer's representation of the `compute_environment_order`
attribute as handed out by `d.Get(...).([]interface{})`: each block is a
`map[string]interface{}` whose `TypeInt` attribute `order` is stored as a
machine `int` (`GoVal.goInt`) and whose `TypeString` attribute is a Go
string. -/
def schemaComputeEnvironmentOrder (l : List ComputeEnvironmentOrderBlock) : List GoMap :=
  List.map (fun b =>
    [("compute_environment", GoVal.goString b.computeEnvironment),
     ("order", GoVal.goInt b.order)]) l

/-! ## createComputeEnvironmentOrder -/

/-- `createComputeEnvironmentOrder(order []interface{})`: converts the
schema-layer blocks into API entries.  Each iteration asserts
`m["order"].(int64)` and `m["compute_environment"].(string)` — a failed
assertion is a Go panic, which aborts the whole loop (and the calling
resource function). -/
def createComputeEnvironmentOrder : List GoMap → Except GoPanicKind (List ComputeEnvironmentOrder)
  | [] => .ok []
  | m :: rest => do
    let o ← assertGoInt64 (goMapIndex m "order")
    let ce ← assertGoString (goMapIndex m "compute_environment")
    let envs ← createComputeEnvironmentOrder rest
    pure ({ order := o, computeEnvironment := ce } :: envs)

/-! ## Sorting (Read re-sorts the API list by the order field) -/

/-- The comparison handed to `sort.Slice` in Read:
`Order[i] < Order[j]` ascending.  The sort itself is stdlib; we model it by
insertion sort on the reflexive closure of that comparison, which produces a
list sorted ascending by `order` like `sort.Slice` does. -/
def ceoLE (a b : ComputeEnvironmentOrder) : Prop := a.order ≤ b.order

instance : DecidableRel ceoLE := fun a b => Int.decLe a.order b.order

instance : IsTotal ComputeEnvironmentOrder ceoLE :=
  ⟨fun a b => Int.le_total a.order b.order⟩

instance : IsTrans ComputeEnvironmentOrder ceoLE :=
  ⟨fun _ _ _ h h2 => Int.le_trans h h2⟩

/-- The `sort.Slice(jq.ComputeEnvironmentOrder, ...)` call of Read. -/
def sortComputeEnvironmentOrder (l : List ComputeEnvironmentOrder) : List ComputeEnvironmentOrder :=
  List.insertionSort ceoLE l

/-! ## getJobQueue and the status refresh function -/

/-- `getJobQueue(conn, sn)`: classifies the `DescribeJobQueues` response for
the single requested queue.  `describeResult` is the oracle's answer for
`DescribeJobQueues({JobQueues: [sn]})`. -/
def getJobQueue (describeResult : Except String (List JobQueueDetail)) (sn : String) :
    Except String (Option JobQueueDetail) :=
  match describeResult with
  | .error err => .error err
  | .ok jobQueues =>
    match jobQueues with
    | [] => .ok none
    | [jq] => .ok (some jq)
    | _ => .error ("Multiple Job Queues with name " ++ sn)

/-- The `interface{}` value returned by the refresh closure:
`nilValue` is Go `nil`, `deletedSentinel` is the literal `42` returned for a
vanished queue, `queue` wraps the described queue. -/
inductive RefreshValue
  | nilValue
  | deletedSentinel
  | queue (jq : JobQueueDetail)
deriving Repr, DecidableEq

/-- `batchJobQueueRefreshStatusFunc(conn, sn)` applied to one describe
response: returns the `(value, status, error)` triple of the
`resource.StateRefreshFunc`. -/
def batchJobQueueRefreshStatusFunc
    (describeResult : Except String (List JobQueueDetail)) (sn : String) :
    RefreshValue × String × Option String :=
  match getJobQueue describeResult sn with
  | .error err => (.nilValue, "failed", some err)
  | .ok none => (.deletedSentinel, jqStatusDeleted, none)
  | .ok (some ce) => (.queue ce, ce.status, none)

/-! ## The status poller (`resource.StateChangeConf`) -/

/-- `resource.StateChangeConf` timing and status parameters, durations in
seconds (`10 * time.Minute = 600 s`). -/
structure StateChangeConf where
  pending : List String
  target : List String
  timeoutSeconds : Nat
  delaySeconds : Nat
  minTimeoutSeconds : Nat
deriving Repr, DecidableEq

/-- Modelled from the spec: §4.2's generic bounded-retry status poller
(`StateChangeConf.WaitForState` of the external plugin framework).  The
bounded retries are fuel; `refresh` is the refresh closure evaluated at
successive polling ticks.  It stops with the refresh value when the target
status is reached, propagates a refresh error, fails on a status that is
neither pending nor target, and fails with a timeout when the fuel is
exhausted. -/
def waitForState (pending target : List String)
    (refresh : Nat → RefreshValue × String × Option String) :
    Nat → Nat → Except String RefreshValue
  | _, 0 => .error "timeout while waiting for state"
  | tick, fuel + 1 =>
    match refresh tick with
    | (_, _, some err) => .error err
    | (v, s, none) =>
      if List.contains target s then .ok v
      else if List.contains pending s then
        waitForState pending target refresh (tick + 1) fuel
      else .error ("unexpected state: " ++ s)

/-- The `stateConf` built by Create: pending `{CREATING, UPDATING}`, target
`{VALID}`, timeout 10 minutes, delay 10 s, minimum interval 3 s. -/
def createJobQueueStateConf : StateChangeConf :=
  { pending := [jqStatusCreating, jqStatusUpdating]
    target := [jqStatusValid]
    timeoutSeconds := 600
    delaySeconds := 10
    minTimeoutSeconds := 3 }

/-- The `stateConf` built by Update after a successful update call. -/
def updateJobQueueStateConf : StateChangeConf :=
  { pending := [jqStatusUpdating]
    target := [jqStatusValid]
    timeoutSeconds := 600
    delaySeconds := 10
    minTimeoutSeconds := 3 }

/-- The `stateChangeConf` built by `disableBatchJobQueue`. -/
def disableJobQueueStateConf : StateChangeConf :=
  { pending := [jqStatusUpdating]
    target := [jqStatusValid]
    timeoutSeconds := 600
    delaySeconds := 10
    minTimeoutSeconds := 3 }

/-- The `stateChangeConf` built by `deleteBatchJobQueue` (its pending set
really mixes the state constant `DISABLED` with the status `DELETING`,
exactly as the source does). -/
def deleteJobQueueStateConf : StateChangeConf :=
  { pending := [jqStateDisabled, jqStatusDeleting]
    target := [jqStatusDeleted]
    timeoutSeconds := 600
    delaySeconds := 10
    minTimeoutSeconds := 3 }

/-! ## Read -/

/-- `resourceAwsBatchJobQueueRead(d, meta)`.

`describeResult` is the API answer to `DescribeJobQueues` for `d.Id()`.
Zero matches: the stored id is cleared (`d.SetId("")`) and no error is
returned.  One match: the attributes are written back from the API detail;
the sorted compute-environment names are written under the key
`"compute_environments"` (the `computeEnvironments` field — NOT the
schema attribute `compute_environment_order`). -/
def resourceAwsBatchJobQueueRead (cfg : AWSClientConfig)
    (describeResult : Except String (List JobQueueDetail)) (d : TFState) :
    Except RunError TFState :=
  match getJobQueue describeResult d.id with
  | .error err => .error (.goError err)
  | .ok none => .ok { d with id := "" }
  | .ok (some jq) =>
    let sorted := sortComputeEnvironmentOrder jq.computeEnvironmentOrder
    let computeEnvironments := List.map (fun ceo => ceo.computeEnvironment) sorted
    let tags := ignoreConfig cfg.ignoreTagKeys (ignoreAws jq.tags)
    .ok { d with
          arn := jq.jobQueueArn
          computeEnvironments := some computeEnvironments
          name := jq.jobQueueName
          priority := jq.priority
          state := jq.state
          tags := removeDefaultConfig cfg.defaultTags tags
          tagsAll := tags }

/-! ## Create -/

/-- `resourceAwsBatchJobQueueCreate(d, meta)`.

* `createResp` is the API answer to `CreateJobQueue` (the returned ARN);
* `describeAt` feeds `batchJobQueueRefreshStatusFunc` at successive
  polling ticks of the `stateConf.WaitForState()` loop (`fuel` bounds it);
* `describeRead` is the describe answer for the final Read.

Note the conversion `createComputeEnvironmentOrder(...)` runs while the
input struct is being built, before `CreateJobQueue` is called; its panic
aborts Create before any API call. -/
def resourceAwsBatchJobQueueCreate (cfg : AWSClientConfig) (d : TFState)
    (createResp : CreateJobQueueInput → Except String String)
    (describeAt : Nat → Except String (List JobQueueDetail)) (fuel : Nat)
    (describeRead : Except String (List JobQueueDetail)) :
    Except RunError TFState :=
  match createComputeEnvironmentOrder (schemaComputeEnvironmentOrder d.computeEnvironmentOrder) with
  | .error p => .error (.goPanicErr p)
  | .ok ceo =>
    match createResp
        { computeEnvironmentOrder := ceo
          jobQueueName := d.name
          priority := d.priority
          state := d.state
          tags := if (mergeTags cfg.defaultTags d.tags).isEmpty then []
                  else ignoreAws (mergeTags cfg.defaultTags d.tags) } with
    | .error err => .error (.goError (err ++ " \"" ++ d.name ++ "\""))
    | .ok arn =>
      match waitForState createJobQueueStateConf.pending createJobQueueStateConf.target
          (fun tick => batchJobQueueRefreshStatusFunc (describeAt tick) d.name) 0 fuel with
      | .error w => .error (.goError ("Error waiting for JobQueue state to be \"VALID\": " ++ w))
      | .ok _ => resourceAwsBatchJobQueueRead cfg describeRead { d with id := arn }

/-! ## Update -/

/-- `d.HasChange("compute_environments")`: the key `"compute_environments"`
is not declared in the resource schema (the schema declares
`compute_environment_order`), so the framework's diff never contains it and
`HasChange` reports false for every prior/planned state pair. -/
def hasChangeComputeEnvironments (_old _planned : TFState) : Bool := false

/-- The Update guard
`d.HasChanges("compute_environments", "priority", "state")`:
true when any of the named keys carries a diff between the prior state and
the planned state. -/
def updateGuardHasChanges (old planned : TFState) : Bool :=
  hasChangeComputeEnvironments old planned ||
    old.priority != planned.priority || old.state != planned.state

/-- The tail of Update: the `d.HasChange("tags_all")` guard, the
tag-reconciliation call `keyvaluetags.BatchUpdateTags(conn, arn, o, n)`,
and the final Read.  Returns the result together with the issued API
calls. -/
def resourceAwsBatchJobQueueUpdateTags (cfg : AWSClientConfig) (old d : TFState)
    (tagsResp : Except String Unit)
    (describeRead : Except String (List JobQueueDetail)) :
    Except RunError TFState × List ApiCall :=
  if old.tagsAll != d.tagsAll then
    match tagsResp with
    | .error err =>
      (.error (.goError ("error updating tags: " ++ err)),
       [.batchUpdateTags d.arn old.tagsAll d.tagsAll])
    | .ok _ =>
      (resourceAwsBatchJobQueueRead cfg describeRead d,
       [.batchUpdateTags d.arn old.tagsAll d.tagsAll])
  else
    (resourceAwsBatchJobQueueRead cfg describeRead d, [])

/-- `resourceAwsBatchJobQueueUpdate(d, meta)`.

`old` is the prior state, `d` the planned state (`d.Get` reads planned
values, `d.HasChange` compares the two).  `updateResp` answers the
`UpdateJobQueue` call, `describeAt`/`fuel` drive the status poll,
`tagsResp` answers the tag-reconciliation call, `describeRead` the final
Read.  Returns the result together with the trace of issued API
mutations. -/
def resourceAwsBatchJobQueueUpdate (cfg : AWSClientConfig) (old d : TFState)
    (updateResp : UpdateJobQueueInput → Except String Unit)
    (describeAt : Nat → Except String (List JobQueueDetail)) (fuel : Nat)
    (tagsResp : Except String Unit)
    (describeRead : Except String (List JobQueueDetail)) :
    Except RunError TFState × List ApiCall :=
  if updateGuardHasChanges old d then
    match createComputeEnvironmentOrder (schemaComputeEnvironmentOrder d.computeEnvironmentOrder) with
    | .error p => (.error (.goPanicErr p), [])
    | .ok ceo =>
      let updateInput : UpdateJobQueueInput :=
        { computeEnvironmentOrder := some ceo
          jobQueue := d.name
          priority := some d.priority
          state := some d.state }
      match updateResp updateInput with
      | .error err => (.error (.goError err), [.updateJobQueue updateInput])
      | .ok _ =>
        match waitForState updateJobQueueStateConf.pending updateJobQueueStateConf.target
            (fun tick => batchJobQueueRefreshStatusFunc (describeAt tick) d.name) 0 fuel with
        | .error w => (.error (.goError w), [.updateJobQueue updateInput])
        | .ok _ =>
          let tail := resourceAwsBatchJobQueueUpdateTags cfg old d tagsResp describeRead
          (tail.1, .updateJobQueue updateInput :: tail.2)
  else
    resourceAwsBatchJobQueueUpdateTags cfg old d tagsResp describeRead

/-! ## Delete -/

/-- The `UpdateJobQueueInput` built by `disableBatchJobQueue`: only
`JobQueue` and `State = DISABLED` are set. -/
def disableUpdateInput (jobQueue : String) : UpdateJobQueueInput :=
  { jobQueue := jobQueue, state := some jqStateDisabled }

/-- `disableBatchJobQueue(jobQueue, conn)`: issue the disable update, then
poll `{UPDATING} → {VALID}`.  Returns the phase result and the issued API
mutations. -/
def disableBatchJobQueue (jobQueue : String)
    (updateResp : UpdateJobQueueInput → Except String Unit)
    (describeAt : Nat → Except String (List JobQueueDetail)) (fuel : Nat) :
    Except String Unit × List ApiCall :=
  match updateResp (disableUpdateInput jobQueue) with
  | .error err => (.error err, [.updateJobQueue (disableUpdateInput jobQueue)])
  | .ok _ =>
    match waitForState disableJobQueueStateConf.pending disableJobQueueStateConf.target
        (fun tick => batchJobQueueRefreshStatusFunc (describeAt tick) jobQueue) 0 fuel with
    | .error w => (.error w, [.updateJobQueue (disableUpdateInput jobQueue)])
    | .ok _ => (.ok (), [.updateJobQueue (disableUpdateInput jobQueue)])

/-- `deleteBatchJobQueue(jobQueue, conn)`: issue `DeleteJobQueue`, then
poll `{DISABLED, DELETING} → {DELETED}`. -/
def deleteBatchJobQueue (jobQueue : String)
    (deleteResp : Except String Unit)
    (describeAt : Nat → Except String (List JobQueueDetail)) (fuel : Nat) :
    Except String Unit × List ApiCall :=
  match deleteResp with
  | .error err => (.error err, [.deleteJobQueue jobQueue])
  | .ok _ =>
    match waitForState deleteJobQueueStateConf.pending deleteJobQueueStateConf.target
        (fun tick => batchJobQueueRefreshStatusFunc (describeAt tick) jobQueue) 0 fuel with
    | .error w => (.error w, [.deleteJobQueue jobQueue])
    | .ok _ => (.ok (), [.deleteJobQueue jobQueue])

/-- `resourceAwsBatchJobQueueDelete(d, meta)`: disable phase first; if it
fails (update call or its poll), the error is wrapped and returned and the
delete phase is never started; otherwise the delete phase runs. -/
def resourceAwsBatchJobQueueDelete (d : TFState)
    (updateResp : UpdateJobQueueInput → Except String Unit)
    (describeAtDisable : Nat → Except String (List JobQueueDetail)) (fuelDisable : Nat)
    (deleteResp : Except String Unit)
    (describeAtDelete : Nat → Except String (List JobQueueDetail)) (fuelDelete : Nat) :
    Except RunError Unit × List ApiCall :=
  let r1 := disableBatchJobQueue d.name updateResp describeAtDisable fuelDisable
  match r1.1 with
  | .error err =>
    (.error (.goError ("error disabling Batch Job Queue (" ++ d.name ++ "): " ++ err)), r1.2)
  | .ok _ =>
    let r2 := deleteBatchJobQueue d.name deleteResp describeAtDelete fuelDelete
    match r2.1 with
    | .error err =>
      (.error (.goError ("error deleting Batch Job Queue (" ++ d.name ++ "): " ++ err)),
       r1.2 ++ r2.2)
    | .ok _ => (.ok (), r1.2 ++ r2.2)

/-! ## Concrete fixtures used by the evaluated theorems and witnesses -/

/-- A compute-environment block whose `order` is stored by the schema layer
as a machine int, the `TypeInt` representation. -/
def machineIntBlock : ComputeEnvironmentOrderBlock :=
  { computeEnvironment := "ce1", order := 1 }

/-- A valid spec with one compute environment, for the Create round trip. -/
def roundTripSpec : TFState :=
  { id := "", name := "q1", priority := 1, state := jqStateEnabled,
    computeEnvironmentOrder := [{ computeEnvironment := "a", order := 0 }] }

/-- The detail the API would report for `roundTripSpec` once VALID. -/
def roundTripDetail : JobQueueDetail :=
  { jobQueueArn := "arn:q1", jobQueueName := "q1", priority := 1,
    state := jqStateEnabled, status := jqStatusValid,
    computeEnvironmentOrder := [{ order := 0, computeEnvironment := "a" }] }

/-- A prior state for Update. -/
def updatePriorState : TFState :=
  { id := "arn:q1", arn := "arn:q1", name := "q1", priority := 1,
    state := jqStateEnabled,
    computeEnvironmentOrder := [{ computeEnvironment := "a", order := 0 }] }

/-- A planned state differing from `updatePriorState` only in the
compute-environment order list. -/
def updatePlannedState : TFState :=
  { updatePriorState with
    computeEnvironmentOrder := [{ computeEnvironment := "a", order := 1 }] }

/-- A prior state for the Read frame-effect witness. -/
def framePriorState : TFState :=
  { id := "arn:q2", arn := "arn:q2", name := "q2", priority := 5,
    state := jqStateEnabled,
    computeEnvironmentOrder :=
      [{ computeEnvironment := "a", order := 1 },
       { computeEnvironment := "b", order := 2 }] }

/-- A describe answer for `framePriorState`, returned by the API in reverse
order. -/
def frameDescribeDetail : JobQueueDetail :=
  { jobQueueArn := "arn:q2", jobQueueName := "q2", priority := 5,
    state := jqStateEnabled, status := jqStatusValid,
    computeEnvironmentOrder :=
      [{ order := 2, computeEnvironment := "b" },
       { order := 1, computeEnvironment := "a" }] }

/-- What Read stores back for `framePriorState` given
`frameDescribeDetail`: only the undeclared `compute_environments` key
changes. -/
def frameReadResult : TFState :=
  { framePriorState with computeEnvironments := some ["a", "b"] }

/-- A valid spec with no compute-environment blocks, so that Create reaches
its status poll. -/
def waitSpecEmptyEnvs : TFState :=
  { id := "", name := "q3", priority := 2, state := jqStateEnabled,
    computeEnvironmentOrder := [] }

/-- A describe oracle whose queue stays in `CREATING` forever, so the
Create poll times out. -/
def stuckDescribe (_tick : Nat) : Except String (List JobQueueDetail) :=
  .ok [{ jobQueueArn := "arn:q3", jobQueueName := "q3", priority := 2,
         state := jqStateEnabled, status := jqStatusCreating,
         computeEnvironmentOrder := [] }]

/-- A state for the Delete witness. -/
def deleteWitnessState : TFState :=
  { id := "arn:q4", arn := "arn:q4", name := "q4", priority := 1,
    state := jqStateEnabled, computeEnvironmentOrder := [] }

/-! ## Theorems -/

/-- C4: the claim asserts that `createComputeEnvironmentOrder` completes
without a failed type assertion on blocks whose `order` is the schema
layer's machine-int representation of a `TypeInt` attribute.  It does not:
`m["order"].(int64)` is a failed interface conversion (a panic) on a Go
`int`, so the function fails on the very first element. -/
theorem createComputeEnvironmentOrder_type_assertion_fails :
    goMapIndex
        [("compute_environment", GoVal.goString machineIntBlock.computeEnvironment),
         ("order", GoVal.goInt machineIntBlock.order)] "order" =
      some (GoVal.goInt 1) ∧
    createComputeEnvironmentOrder (schemaComputeEnvironmentOrder [machineIntBlock]) =
      .error GoPanicKind.interfaceConversion := by
  exact ⟨rfl, rfl⟩

/-- C2: the claim asserts that Create followed by Read round-trips every
valid spec.  It does not hold: for any spec with at least one
compute-environment block, `createComputeEnvironmentOrder` panics on the
`m["order"].(int64)` assertion while the create input is being built, so
Create aborts before issuing any API call — for every possible behaviour
of the API (`createResp`, `describeAt`, `describeRead` universally
quantified). -/
theorem create_panics_before_round_trip (cfg : AWSClientConfig)
    (createResp : CreateJobQueueInput → Except String String)
    (describeAt : Nat → Except String (List JobQueueDetail)) (fuel : Nat)
    (describeRead : Except String (List JobQueueDetail)) :
    resourceAwsBatchJobQueueCreate cfg roundTripSpec createResp describeAt fuel describeRead =
      .error (.goPanicErr .interfaceConversion) := rfl

/-- C1: the claim asserts that Update issues `UpdateJobQueue` iff priority,
state, or compute-environment order changed.  It does not hold: the guard
is `d.HasChanges("compute_environments", "priority", "state")`, and
`"compute_environments"` is not a schema key, so a change confined to
`compute_environment_order` fires no update call — the trace of issued API
mutations is empty for every possible API behaviour. -/
theorem update_skips_compute_environment_order_change (cfg : AWSClientConfig)
    (updateResp : UpdateJobQueueInput → Except String Unit)
    (describeAt : Nat → Except String (List JobQueueDetail)) (fuel : Nat)
    (tagsResp : Except String Unit)
    (describeRead : Except String (List JobQueueDetail)) :
    updatePriorState.computeEnvironmentOrder ≠ updatePlannedState.computeEnvironmentOrder ∧
    updatePriorState.priority = updatePlannedState.priority ∧
    updatePriorState.state = updatePlannedState.state ∧
    (resourceAwsBatchJobQueueUpdate cfg updatePriorState updatePlannedState
        updateResp describeAt fuel tagsResp describeRead).2 = [] := by
  exact ⟨by decide, rfl, rfl, rfl⟩

/-- C6: a `DescribeJobQueues` lookup that succeeds with zero matches makes
Read return without error, clearing the stored identifier
(`d.SetId("")`), for every provider configuration and prior state. -/
theorem read_zero_matches_clears_id_without_error (cfg : AWSClientConfig) (d : TFState) :
    resourceAwsBatchJobQueueRead cfg (Except.ok []) d = .ok { d with id := "" } := rfl

/-- C7: a `DescribeJobQueues` lookup that returns two or more matches makes
Read return the ambiguous-name error; no single result is ever picked. -/
theorem read_multiple_matches_is_error (cfg : AWSClientConfig) (d : TFState)
    (jq1 jq2 : JobQueueDetail) (rest : List JobQueueDetail) :
    resourceAwsBatchJobQueueRead cfg (Except.ok (jq1 :: jq2 :: rest)) d =
      .error (.goError ("Multiple Job Queues with name " ++ d.id)) := rfl

/-- C3: for every queue detail the API returns — hence for every
permutation of its compute-environment order list — Read succeeds and the
compute-environment list it exposes is the one re-sorted ascending by the
`order` field: the exposed names are the names of the sorted list, the
sorted list is `Sorted` under `order ≤ order`, and it is a permutation of
the API list. -/
theorem read_exposes_order_sorted_compute_environments (cfg : AWSClientConfig)
    (jq : JobQueueDetail) (d : TFState) :
    ∃ s, resourceAwsBatchJobQueueRead cfg (Except.ok [jq]) d = .ok s ∧
      s.computeEnvironments =
        some (List.map (fun ceo => ceo.computeEnvironment)
          (sortComputeEnvironmentOrder jq.computeEnvironmentOrder)) ∧
      List.Sorted ceoLE (sortComputeEnvironmentOrder jq.computeEnvironmentOrder) ∧
      (sortComputeEnvironmentOrder jq.computeEnvironmentOrder).Perm
        jq.computeEnvironmentOrder := by
  refine ⟨_, rfl, rfl, ?_, ?_⟩
  · exact List.sorted_insertionSort ceoLE jq.computeEnvironmentOrder
  · exact List.perm_insertionSort ceoLE jq.computeEnvironmentOrder

/-- C8: the refresh function returns status `DELETED` (no error) on a
lookup succeeding with zero results, the sentinel status `"failed"` —
which is none of the real lifecycle statuses — together with the error
when the lookup fails (describe error or ambiguous multi-match), and the
queue's reported status otherwise. -/
theorem refresh_status_classification
    (describeResult : Except String (List JobQueueDetail)) (sn : String) :
    ((∀ e, describeResult = .error e →
        batchJobQueueRefreshStatusFunc describeResult sn = (.nilValue, "failed", some e)) ∧
     (describeResult = .ok [] →
        batchJobQueueRefreshStatusFunc describeResult sn =
          (.deletedSentinel, jqStatusDeleted, none)) ∧
     (∀ jq, describeResult = .ok [jq] →
        batchJobQueueRefreshStatusFunc describeResult sn = (.queue jq, jq.status, none)) ∧
     (∀ jq1 jq2 rest, describeResult = .ok (jq1 :: jq2 :: rest) →
        (batchJobQueueRefreshStatusFunc describeResult sn).2.1 = "failed")) ∧
    "failed" ∉ batchJobQueueStatuses := by
  refine ⟨⟨?_, ?_, ?_, ?_⟩, by decide⟩
  · intro e h; subst h; rfl
  · intro h; subst h; rfl
  · intro jq h; subst h; rfl
  · intro jq1 jq2 rest h; subst h; rfl

/-- C8 witness: the zero-result case at a concrete name, and the
sentinel's distinctness from the real statuses. -/
theorem refresh_status_classification_witness :
    batchJobQueueRefreshStatusFunc (Except.ok []) "q1" =
      (.deletedSentinel, jqStatusDeleted, none) ∧
    "failed" ∉ batchJobQueueStatuses :=
  ⟨(refresh_status_classification (Except.ok []) "q1").1.2.1 rfl,
   (refresh_status_classification (Except.ok []) "q1").2⟩

/-- C10: whenever Read succeeds, the stored `compute_environment_order`
attribute is exactly what it was before the Read: the sorted environment
names go only to the undeclared `compute_environments` key. -/
theorem read_preserves_compute_environment_order (cfg : AWSClientConfig)
    (describeResult : Except String (List JobQueueDetail)) (d s : TFState)
    (h : resourceAwsBatchJobQueueRead cfg describeResult d = .ok s) :
    s.computeEnvironmentOrder = d.computeEnvironmentOrder := by
  unfold resourceAwsBatchJobQueueRead at h
  split at h
  · cases h
  · injection h with h2
    subst h2
    rfl
  · injection h with h2
    subst h2
    rfl

/-- C10 witness: a Read that rewrites every other attribute leaves
`compute_environment_order` untouched. -/
theorem read_preserves_compute_environment_order_witness :
    frameReadResult.computeEnvironmentOrder = framePriorState.computeEnvironmentOrder :=
  read_preserves_compute_environment_order {} (Except.ok [frameDescribeDetail])
    framePriorState frameReadResult rfl

/-- C9: whenever the status poll of Create fails — a timeout before the
target `VALID` is reached, a refresh error, or a status outside pending ∪
target — Create returns the wait-failure error, never silent success; and
the poll configuration is pending `{CREATING, UPDATING}`, target
`{VALID}`, timeout 600 s (10 min), initial delay 10 s, minimum interval
3 s. -/
theorem create_wait_failure_returns_error (cfg : AWSClientConfig) (d : TFState)
    (createResp : CreateJobQueueInput → Except String String)
    (describeAt : Nat → Except String (List JobQueueDetail)) (fuel : Nat)
    (describeRead : Except String (List JobQueueDetail))
    (ceo : List ComputeEnvironmentOrder) (arn w : String)
    (hceo : createComputeEnvironmentOrder
        (schemaComputeEnvironmentOrder d.computeEnvironmentOrder) = .ok ceo)
    (hcreate : ∀ input, createResp input = .ok arn)
    (hwait : waitForState createJobQueueStateConf.pending createJobQueueStateConf.target
        (fun tick => batchJobQueueRefreshStatusFunc (describeAt tick) d.name) 0 fuel =
        .error w) :
    resourceAwsBatchJobQueueCreate cfg d createResp describeAt fuel describeRead =
      .error (.goError ("Error waiting for JobQueue state to be \"VALID\": " ++ w)) ∧
    createJobQueueStateConf =
      { pending := [jqStatusCreating, jqStatusUpdating], target := [jqStatusValid],
        timeoutSeconds := 600, delaySeconds := 10, minTimeoutSeconds := 3 } := by
  refine ⟨?_, rfl⟩
  simp only [resourceAwsBatchJobQueueCreate, hceo, hcreate, hwait]

/-- C9 witness: a queue stuck in `CREATING` exhausts the poll bound and
Create reports the wait failure. -/
theorem create_wait_failure_returns_error_witness :
    resourceAwsBatchJobQueueCreate {} waitSpecEmptyEnvs (fun _ => Except.ok "arn:q3")
        stuckDescribe 3 (Except.ok []) =
      .error (.goError ("Error waiting for JobQueue state to be \"VALID\": " ++
        "timeout while waiting for state")) ∧
    createJobQueueStateConf =
      { pending := [jqStatusCreating, jqStatusUpdating], target := [jqStatusValid],
        timeoutSeconds := 600, delaySeconds := 10, minTimeoutSeconds := 3 } :=
  create_wait_failure_returns_error {} waitSpecEmptyEnvs (fun _ => Except.ok "arn:q3")
    stuckDescribe 3 (Except.ok []) [] "arn:q3" "timeout while waiting for state"
    rfl (fun _ => rfl) rfl

/-- Helper: the disable phase issues exactly the one disable update call,
whatever its outcome. -/
theorem disableBatchJobQueue_calls (jobQueue : String)
    (updateResp : UpdateJobQueueInput → Except String Unit)
    (describeAt : Nat → Except String (List JobQueueDetail)) (fuel : Nat) :
    (disableBatchJobQueue jobQueue updateResp describeAt fuel).2 =
      [.updateJobQueue (disableUpdateInput jobQueue)] := by
  unfold disableBatchJobQueue
  cases updateResp (disableUpdateInput jobQueue) with
  | error err => rfl
  | ok u =>
    cases waitForState disableJobQueueStateConf.pending disableJobQueueStateConf.target
        (fun tick => batchJobQueueRefreshStatusFunc (describeAt tick) jobQueue) 0 fuel with
    | error w => rfl
    | ok v => rfl

/-- Helper: the delete phase issues exactly the one `DeleteJobQueue` call,
whatever its outcome. -/
theorem deleteBatchJobQueue_calls (jobQueue : String)
    (deleteResp : Except String Unit)
    (describeAt : Nat → Except String (List JobQueueDetail)) (fuel : Nat) :
    (deleteBatchJobQueue jobQueue deleteResp describeAt fuel).2 =
      [.deleteJobQueue jobQueue] := by
  unfold deleteBatchJobQueue
  cases deleteResp with
  | error err => rfl
  | ok u =>
    cases waitForState deleteJobQueueStateConf.pending deleteJobQueueStateConf.target
        (fun tick => batchJobQueueRefreshStatusFunc (describeAt tick) jobQueue) 0 fuel with
    | error w => rfl
    | ok v => rfl

/-- C5: Delete's trace always starts with the disable update call; the
`DeleteJobQueue` call appears exactly when the whole disable phase (call
and poll to `VALID`) succeeded, and when the disable phase fails its error
propagates wrapped and `DeleteJobQueue` is never issued. -/
theorem delete_issues_disable_before_delete (d : TFState)
    (updateResp : UpdateJobQueueInput → Except String Unit)
    (describeAtDisable : Nat → Except String (List JobQueueDetail)) (fuelDisable : Nat)
    (deleteResp : Except String Unit)
    (describeAtDelete : Nat → Except String (List JobQueueDetail)) (fuelDelete : Nat) :
    (resourceAwsBatchJobQueueDelete d updateResp describeAtDisable fuelDisable
        deleteResp describeAtDelete fuelDelete).2 =
      .updateJobQueue (disableUpdateInput d.name) ::
        (match (disableBatchJobQueue d.name updateResp describeAtDisable fuelDisable).1 with
         | .error _ => []
         | .ok _ => [.deleteJobQueue d.name]) ∧
    (∀ e, (disableBatchJobQueue d.name updateResp describeAtDisable fuelDisable).1 =
        .error e →
      (resourceAwsBatchJobQueueDelete d updateResp describeAtDisable fuelDisable
          deleteResp describeAtDelete fuelDelete).1 =
        .error (.goError ("error disabling Batch Job Queue (" ++ d.name ++ "): " ++ e))) := by
  have h1 := disableBatchJobQueue_calls d.name updateResp describeAtDisable fuelDisable
  have h2 := deleteBatchJobQueue_calls d.name deleteResp describeAtDelete fuelDelete
  constructor
  · unfold resourceAwsBatchJobQueueDelete
    cases hd : (disableBatchJobQueue d.name updateResp describeAtDisable fuelDisable).1 with
    | error e => simp [hd, h1]
    | ok u =>
      cases hdel : (deleteBatchJobQueue d.name deleteResp describeAtDelete fuelDelete).1 with
      | error e2 => simp [hd, hdel, h1, h2]
      | ok u2 => simp [hd, hdel, h1, h2]
  · intro e he
    unfold resourceAwsBatchJobQueueDelete
    simp [he]

/-- C5 witness: a rejected disable call yields the wrapped disable error
and a trace containing the disable update call only — no
`DeleteJobQueue`. -/
theorem delete_issues_disable_before_delete_witness :
    (resourceAwsBatchJobQueueDelete deleteWitnessState (fun _ => Except.error "denied")
        (fun _ => Except.ok []) 3 (Except.ok ()) (fun _ => Except.ok []) 3).2 =
      [ApiCall.updateJobQueue (disableUpdateInput "q4")] ∧
    (resourceAwsBatchJobQueueDelete deleteWitnessState (fun _ => Except.error "denied")
        (fun _ => Except.ok []) 3 (Except.ok ()) (fun _ => Except.ok []) 3).1 =
      .error (.goError "error disabling Batch Job Queue (q4): denied") := by
  have h := delete_issues_disable_before_delete deleteWitnessState
    (fun _ => Except.error "denied") (fun _ => Except.ok []) 3 (Except.ok ())
    (fun _ => Except.ok []) 3
  exact ⟨h.1.trans rfl, h.2 "denied" rfl⟩

end BatchJobQueue
